import Mathlib

/-!
Shallow embedding of the Lumina visual-RAG engine's three serverless
handlers (`analyze-video`, `search-videos`, `video-qa`) and the client's
timestamp parsing, translated from the TypeScript sources.

Conventions of the embedding:
* JS strings are Lean `String`s; a possibly-absent / possibly-null JS value
  is an `Option`.
* The JS falsy test on a string (`!s`, `s || d`) treats `undefined`, `null`
  and `""` as falsy; on a number it treats `undefined`, `null` and `0` as
  falsy.  Helpers `jsTruthy`, `numOr`, `strOr`, `strOrNull` encode this.
* Machine numbers that only ever hold non-negative integers in the claims'
  range are `Nat`; relevance scores (JS floats in `[0,1]`) are `ℚ`.
* Calls to external collaborators (the AI gateway `fetch`, `JSON.parse` on
  the model's free text, the database driver's error results) are oracles
  supplied in an environment record; every local computation on their
  results is translated from the source.
* `Math.max(...xs)` is `jsMax : List Nat → Option Nat`, `none` standing for
  the `-Infinity` produced on an empty argument list.
-/

/-- JS truthiness of a possibly-absent string (`undefined`/`null`/`""` falsy). -/
def jsTruthy : Option String → Bool
  | none => false
  | some s => !(s == "")

/-- JS `x || d` on a possibly-absent number (`undefined`/`null`/`0` falsy). -/
def numOr (x : Option Nat) (d : Nat) : Nat :=
  match x with
  | none => d
  | some n => if n = 0 then d else n

/-- JS `x || d` on a possibly-absent string (`undefined`/`null`/`""` falsy). -/
def strOr (x : Option String) (d : String) : String :=
  match x with
  | none => d
  | some s => if s = "" then d else s

/-- JS `x || null` on a possibly-absent string: falsy collapses to `null`. -/
def strOrNull (x : Option String) : Option String :=
  match x with
  | none => none
  | some s => if s = "" then none else some s

/-- `Math.max(...xs)`; `none` models the `-Infinity` returned on `[]`. -/
def jsMax : List Nat → Option Nat
  | [] => none
  | x :: xs => some (xs.foldl max x)

/-- JS `String.prototype.padStart(2, "0")` on a character list. -/
def padStart2 (s : List Char) : List Char :=
  List.replicate (2 - s.length) '0' ++ s

/-- `formatTimestamp` from `supabase/functions/analyze-video/index.ts`:
`HH:MM:SS` rendering of a second count (`Math.floor` is `Nat` division). -/
def formatTimestamp (seconds : Nat) : String :=
  let hrs := seconds / 3600
  let mins := (seconds % 3600) / 60
  let secs := seconds % 60
  String.mk (padStart2 (Nat.toDigits 10 hrs) ++ [':'] ++
             padStart2 (Nat.toDigits 10 mins) ++ [':'] ++
             padStart2 (Nat.toDigits 10 secs))

/-- JS `ts.split(":")` on a character list. -/
def splitColon : List Char → List (List Char)
  | [] => [[]]
  | c :: rest =>
    if c = ':' then [] :: splitColon rest
    else
      match splitColon rest with
      | [] => [[c]]
      | p :: ps => (c :: p) :: ps

/-- JS `Number()` restricted to the strings this code feeds it: `""` is `0`,
a digit string is its value, anything else is `NaN` (modelled `none`). -/
def jsNumberNat (s : List Char) : Option Nat :=
  if s = [] then some 0
  else if s.all (·.isDigit) then
    some (s.foldl (fun acc c => acc * 10 + (c.toNat - 48)) 0)
  else none

/-- NaN-propagating addition of JS numbers. -/
def nanAdd (a b : Option Nat) : Option Nat :=
  match a, b with
  | some x, some y => some (x + y)
  | _, _ => none

/-- NaN-propagating multiplication of a JS number by a constant. -/
def nanMul (a : Option Nat) (k : Nat) : Option Nat :=
  match a with
  | some x => some (x * k)
  | none => none

/-- `parseTimestamp` from the client's Q&A panel component: colon-split,
`map(Number)`, then `h*3600+m*60+s` for 3 parts, `m*60+s` for 2, else `0`.
`none` models a NaN result. -/
def parseTimestamp (ts : String) : Option Nat :=
  let parts := (splitColon ts.data).map jsNumberNat
  match parts with
  | [a, b, c] => nanAdd (nanAdd (nanMul a 3600) (nanMul b 60)) c
  | [a, b] => nanAdd (nanMul a 60) b
  | _ => some 0

/-- `handleTimestampClick` from `src/lib/api.ts` (the seek-seconds it
computes): the same colon-split arithmetic, starting from `seconds = 0`. -/
def handleTimestampClickSeconds (timestamp : String) : Option Nat :=
  let parts := (splitColon timestamp.data).map jsNumberNat
  match parts with
  | [a, b, c] => nanAdd (nanAdd (nanMul a 3600) (nanMul b 60)) c
  | [a, b] => nanAdd (nanMul a 60) b
  | _ => some 0

/-! ### Lemmas about colon splitting and two-digit rendering -/

theorem splitColon_ne_nil (l : List Char) : splitColon l ≠ [] := by
  induction l with
  | nil => simp [splitColon]
  | cons c rest ih =>
    by_cases hc : c = ':'
    · simp [splitColon, hc]
    · simp only [splitColon, hc, if_false]
      cases h : splitColon rest with
      | nil => simp
      | cons p ps => simp

theorem splitColon_append (a r : List Char) (h : ':' ∉ a) :
    splitColon (a ++ ':' :: r) = a :: splitColon r := by
  induction a with
  | nil => simp [splitColon]
  | cons c a' ih =>
    have hc : c ≠ ':' := fun hc => h (hc ▸ List.mem_cons_self c a')
    have h' : ':' ∉ a' := fun hm => h (List.mem_cons_of_mem c hm)
    simp only [List.cons_append, splitColon, hc, if_false, List.append_eq, ih h']

theorem splitColon_no_colon (a : List Char) (h : ':' ∉ a) :
    splitColon a = [a] := by
  induction a with
  | nil => rfl
  | cons c a' ih =>
    have hc : c ≠ ':' := fun hc => h (hc ▸ List.mem_cons_self c a')
    have h' : ':' ∉ a' := fun hm => h (List.mem_cons_of_mem c hm)
    simp only [splitColon, hc, if_false, ih h']

theorem pad_digits_ok : ∀ n : Fin 100,
    ':' ∉ padStart2 (Nat.toDigits 10 n.val) ∧
    jsNumberNat (padStart2 (Nat.toDigits 10 n.val)) = some n.val := by decide

/-- C3: formatting an integer second count `S < 24*3600` as `HH:MM:SS` with
the server's `formatTimestamp` and re-parsing it with either client
colon-split parser reproduces `S`. -/
theorem C3_timestamp_round_trip (S : Nat) (hS : S < 24 * 3600) :
    parseTimestamp (formatTimestamp S) = some S ∧
    handleTimestampClickSeconds (formatTimestamp S) = some S := by
  obtain ⟨ha1, ha2⟩ := pad_digits_ok ⟨S / 3600, by omega⟩
  obtain ⟨hb1, hb2⟩ := pad_digits_ok ⟨S % 3600 / 60, by omega⟩
  obtain ⟨hc1, hc2⟩ := pad_digits_ok ⟨S % 60, by omega⟩
  have key : splitColon (formatTimestamp S).data =
      [padStart2 (Nat.toDigits 10 (S / 3600)),
       padStart2 (Nat.toDigits 10 (S % 3600 / 60)),
       padStart2 (Nat.toDigits 10 (S % 60))] := by
    show splitColon
        (padStart2 (Nat.toDigits 10 (S / 3600)) ++ [':'] ++
         padStart2 (Nat.toDigits 10 (S % 3600 / 60)) ++ [':'] ++
         padStart2 (Nat.toDigits 10 (S % 60))) = _
    rw [List.append_assoc, List.append_assoc, List.append_assoc,
        List.singleton_append, List.singleton_append,
        splitColon_append _ _ ha1, splitColon_append _ _ hb1,
        splitColon_no_colon _ hc1]
  have harith : S / 3600 * 3600 + S % 3600 / 60 * 60 + S % 60 = S := by omega
  constructor
  · show (match (splitColon (formatTimestamp S).data).map jsNumberNat with
      | [a, b, c] => nanAdd (nanAdd (nanMul a 3600) (nanMul b 60)) c
      | [a, b] => nanAdd (nanMul a 60) b
      | _ => some 0) = some S
    rw [key]
    simp only [List.map, ha2, hb2, hc2, nanMul, nanAdd, harith]
  · show (match (splitColon (formatTimestamp S).data).map jsNumberNat with
      | [a, b, c] => nanAdd (nanAdd (nanMul a 3600) (nanMul b 60)) c
      | [a, b] => nanAdd (nanMul a 60) b
      | _ => some 0) = some S
    rw [key]
    simp only [List.map, ha2, hb2, hc2, nanMul, nanAdd, harith]

/-- Witness for C3 at `S = 3725` (`"01:02:05"`). -/
theorem C3_timestamp_round_trip_witness :
    parseTimestamp (formatTimestamp 3725) = some 3725 ∧
    handleTimestampClickSeconds (formatTimestamp 3725) = some 3725 :=
  C3_timestamp_round_trip 3725 (by decide)

/-! ### Database model

Rows of the three tables from the migration, restricted to the columns the
handlers read or write.  `Option` fields are nullable columns. -/

/-- A row of `videos`. -/
structure VideoRow where
  id : String
  title : String
  filename : String
  storage_path : String
  duration_seconds : Option Nat
  status : String
  deriving Repr, DecidableEq

/-- A row of `video_segments`. -/
structure SegmentRow where
  id : String
  video_id : String
  timestamp_seconds : Nat
  timestamp_display : String
  description : Option String
  ocr_text : Option String
  detected_objects : List (String × Nat)
  transcript : Option String
  embedding_text : Option String
  confidence_score : ℚ
  deriving Repr, DecidableEq

/-- A row of `video_qa_history`. -/
structure QaRow where
  video_id : String
  question : String
  answer : String
  relevant_timestamps : List String
  deriving Repr, DecidableEq

/-- The database state the handlers touch. -/
structure Db where
  videos : List VideoRow
  segments : List SegmentRow
  qaHistory : List QaRow
  deriving Repr, DecidableEq

/-! ### analyze-video handler -/

/-- One element of the JSON array parsed out of the AI reply (or of the
hard-coded fallback list): the fields `segments.map` reads, each possibly
absent. -/
structure SegJson where
  timestamp_seconds : Option Nat
  description : Option String
  ocr_text : Option String
  detected_objects : Option (List (String × Nat))
  transcript : Option String
  deriving Repr, DecidableEq

/-- Request body of analyze-video. -/
structure AnalyzeReq where
  videoId : Option String
  videoUrl : Option String
  title : Option String
  deriving Repr, DecidableEq

/-- Outcome of the AI-gateway `fetch` in analyze-video: an HTTP failure
status, or a 200 whose content either yields a parsed JSON array
(`okParse (some segs)`) or fails to parse — no `[...]` substring found, or
`JSON.parse` threw (`okParse none`). -/
inductive AnalyzeFetch where
  | httpError (status : Nat)
  | okParse (parsed : Option (List SegJson))
  deriving Repr, DecidableEq

/-- Environment of one analyze-video invocation: the `LOVABLE_API_KEY`
variable, the gateway outcome, the database driver's error results for the
two writes, and the `Math.random()`-based confidence for each index. -/
structure AnalyzeEnv where
  lovableApiKey : Option String
  fetch : AnalyzeFetch
  insertError : Option String
  updateError : Option String
  confidence : Nat → ℚ

/-- Response body of analyze-video. -/
inductive AnalyzeBody where
  | success (segmentsCreated : Nat)
  | error (msg : String)
  deriving Repr, DecidableEq

/-- An HTTP response of analyze-video. -/
structure AnalyzeResp where
  status : Nat
  body : AnalyzeBody
  deriving Repr, DecidableEq

/-- The hard-coded fallback segment list substituted on parse failure. -/
def fallbackSegments (title : Option String) : List SegJson :=
  [ { timestamp_seconds := some 0,
      description := some "Video introduction and opening sequence",
      ocr_text := title,
      detected_objects := some [("person", 1)],
      transcript := some "Welcome to this video content" },
    { timestamp_seconds := some 30,
      description := some "Main content begins with key information",
      ocr_text := some "",
      detected_objects := some [("text_overlay", 1)],
      transcript := some "Let me explain the main topic" },
    { timestamp_seconds := some 60,
      description := some "Detailed explanation and demonstration",
      ocr_text := some "",
      detected_objects := some [("person", 1)],
      transcript := some "Here you can see how this works" },
    { timestamp_seconds := some 120,
      description := some "Summary and conclusion",
      ocr_text := some "Summary",
      detected_objects := some [("text_overlay", 1)],
      transcript := some "To wrap up, we covered the main points" } ]

/-- `segments.map((seg, index) => ({...}))`: the records inserted into
`video_segments` (their generated `id` is left `""`; the insert does not
supply one). -/
def segmentRecords (videoId : String) (conf : Nat → ℚ) (segs : List SegJson) :
    List SegmentRow :=
  segs.enum.map fun p =>
    { id := ""
      video_id := videoId
      timestamp_seconds := numOr p.2.timestamp_seconds (p.1 * 30)
      timestamp_display := formatTimestamp (numOr p.2.timestamp_seconds (p.1 * 30))
      description := some (strOr p.2.description "Video segment")
      ocr_text := strOrNull p.2.ocr_text
      detected_objects := p.2.detected_objects.getD []
      transcript := strOrNull p.2.transcript
      embedding_text := some (((p.2.description.getD "") ++ " " ++
        (p.2.transcript.getD "") ++ " " ++ (p.2.ocr_text.getD "")).trim)
      confidence_score := conf p.1 }

/-- `videos.update({status: "ready", duration_seconds}).eq("id", videoId)`. -/
def updateVideoRow (videos : List VideoRow) (videoId : String)
    (duration : Option Nat) : List VideoRow :=
  videos.map fun v =>
    if v.id = videoId then { v with status := "ready", duration_seconds := duration }
    else v

/-- `let segments = []; try {... segments = JSON.parse ...} catch {segments = fallback}`:
the segment list the rest of the handler works with. -/
def parsedOrFallback (p : Option (List SegJson)) (title : Option String) :
    List SegJson :=
  match p with
  | some l => l
  | none => fallbackSegments title

/-- `Math.max(...segments.map(s => s.timestamp_seconds || 0))`, the quantity
the video-row update adds 30 to (on the nonempty case). -/
def maxTsOrZero (segs : List SegJson) : Nat :=
  (segs.map fun s => s.timestamp_seconds.getD 0).foldl max 0

/-- The analyze-video handler (`supabase/functions/analyze-video/index.ts`),
as a function of the request, the environment oracle and the database
state.  A thrown error is the 500 path of the surrounding `catch`. -/
def analyzeVideo (req : AnalyzeReq) (env : AnalyzeEnv) (db : Db) :
    AnalyzeResp × Db :=
  if !(jsTruthy req.videoId && jsTruthy req.videoUrl) then
    (⟨500, .error "Missing videoId or videoUrl"⟩, db)
  else if !(jsTruthy env.lovableApiKey) then
    (⟨500, .error "LOVABLE_API_KEY is not configured"⟩, db)
  else
    match env.fetch with
    | .httpError s =>
      if s = 429 then (⟨500, .error "Rate limited. Please try again later."⟩, db)
      else if s = 402 then
        (⟨500, .error "Payment required. Please add funds to your workspace."⟩, db)
      else (⟨500, .error ("AI gateway error: " ++ toString s)⟩, db)
    | .okParse parsed =>
      let segs := parsedOrFallback parsed req.title
      let records := segmentRecords (req.videoId.getD "") env.confidence segs
      match env.insertError with
      | some e => (⟨500, .error e⟩, db)
      | none =>
        let db1 : Db := { db with segments := db.segments ++ records }
        match env.updateError with
        | some e => (⟨500, .error e⟩, db1)
        | none =>
          let duration := (jsMax (segs.map fun s => s.timestamp_seconds.getD 0)).map (· + 30)
          let db2 : Db :=
            { db1 with videos := updateVideoRow db1.videos (req.videoId.getD "") duration }
          (⟨200, .success records.length⟩, db2)

/-! ### Shared concrete inputs for witnesses and counterexamples -/

/-- A well-formed analyze request. -/
def demoReq : AnalyzeReq := ⟨some "v1", some "https://x/demo.mp4", some "Demo"⟩

/-- A database holding one video in status `processing` and nothing else. -/
def demoDb : Db :=
  ⟨[⟨"v1", "Demo", "demo.mp4", "videos/demo.mp4", none, "processing"⟩], [], []⟩

/-! ### Helper lemmas on the analyze handler -/

theorem jsMax_of_ne_nil (xs : List Nat) (h : xs ≠ []) :
    jsMax xs = some (xs.foldl max 0) := by
  cases xs with
  | nil => exact absurd rfl h
  | cons x t => simp [jsMax, List.foldl, Nat.zero_max]

theorem segmentRecords_length (videoId : String) (conf : Nat → ℚ)
    (segs : List SegJson) :
    (segmentRecords videoId conf segs).length = segs.length := by
  simp [segmentRecords]

/-- C1: when the AI reply fails to parse as JSON (no `[...]` substring, or
`JSON.parse` throws), the handler inserts exactly the 4 fallback segments,
whose timestamps are 0, 30, 60 and 120, and the success response reports
`segmentsCreated = 4`. -/
theorem C1_fallback_segments (req : AnalyzeReq) (env : AnalyzeEnv) (db : Db)
    (hid : jsTruthy req.videoId = true) (hurl : jsTruthy req.videoUrl = true)
    (hkey : jsTruthy env.lovableApiKey = true)
    (hfetch : env.fetch = .okParse none)
    (hins : env.insertError = none) (hupd : env.updateError = none) :
    (analyzeVideo req env db).2.segments =
      db.segments ++
        segmentRecords (req.videoId.getD "") env.confidence
          (fallbackSegments req.title) ∧
    (segmentRecords (req.videoId.getD "") env.confidence
        (fallbackSegments req.title)).map (fun r => r.timestamp_seconds) =
      [0, 30, 60, 120] ∧
    (analyzeVideo req env db).1 = ⟨200, .success 4⟩ := by
  have hrec : (segmentRecords (req.videoId.getD "") env.confidence
      (fallbackSegments req.title)).map (fun r => r.timestamp_seconds) =
      [0, 30, 60, 120] := by
    simp [segmentRecords, fallbackSegments, List.enum, numOr]
  refine ⟨?_, hrec, ?_⟩ <;>
    simp [analyzeVideo, hid, hurl, hkey, hfetch, hins, hupd, parsedOrFallback,
      segmentRecords_length, fallbackSegments]

/-- Witness for C1 on a concrete run. -/
theorem C1_fallback_segments_witness :
    ((analyzeVideo demoReq ⟨some "key", .okParse none, none, none, fun _ => (9 : ℚ)/10⟩
        demoDb).2.segments =
      demoDb.segments ++
        segmentRecords (demoReq.videoId.getD "")
          (fun _ => (9 : ℚ)/10) (fallbackSegments demoReq.title) ∧
    (segmentRecords (demoReq.videoId.getD "") (fun _ => (9 : ℚ)/10)
        (fallbackSegments demoReq.title)).map (fun r => r.timestamp_seconds) =
      [0, 30, 60, 120] ∧
    (analyzeVideo demoReq ⟨some "key", .okParse none, none, none, fun _ => (9 : ℚ)/10⟩
        demoDb).1 = ⟨200, .success 4⟩) :=
  C1_fallback_segments demoReq _ demoDb rfl rfl rfl rfl rfl rfl

/-- Parsed segment list refuting C2: a later segment with timestamp 0. -/
def c2Segs : List SegJson :=
  [⟨some 5, none, none, none, none⟩, ⟨some 0, none, none, none, none⟩]

/-- Environment for the C2 counterexample run. -/
def c2Env : AnalyzeEnv :=
  ⟨some "key", .okParse (some c2Segs), none, none, fun _ => (9 : ℚ)/10⟩

/-- C2 counterexample: on a successful run over parsed segments with
timestamps `[5, 0]`, the inserted records carry timestamps `[5, 30]`
(maximum 30), yet the video row's duration is set to 35, not 30 + 30 —
so the claimed "duration = max inserted timestamp + 30" is false. -/
theorem C2_counterexample :
    ((analyzeVideo demoReq c2Env demoDb).2.segments.map
        (fun r => r.timestamp_seconds)) = [5, 30] ∧
    ((analyzeVideo demoReq c2Env demoDb).2.videos.map
        (fun v => v.duration_seconds)) = [some 35] ∧
    (35 : Nat) ≠ 30 + 30 := by
  refine ⟨by rfl, by rfl, by decide⟩

/-- C2 (amended): on a successful run (insert and update both succeed), the
video row with the request's id is set to `status = "ready"` and
`duration_seconds = maxTsOrZero segs + 30`, where `segs` is the parsed (or
fallback) segment list and `maxTsOrZero` takes each segment's raw
`timestamp_seconds` with 0 for an absent value — i.e. the duration is
computed from the pre-default timestamps, not from the timestamps of the
records actually inserted. -/
theorem C2_ready_duration (req : AnalyzeReq) (env : AnalyzeEnv) (db : Db)
    (p : Option (List SegJson))
    (hid : jsTruthy req.videoId = true) (hurl : jsTruthy req.videoUrl = true)
    (hkey : jsTruthy env.lovableApiKey = true)
    (hfetch : env.fetch = .okParse p)
    (hins : env.insertError = none) (hupd : env.updateError = none)
    (hne : parsedOrFallback p req.title ≠ []) :
    ∀ v ∈ (analyzeVideo req env db).2.videos, v.id = req.videoId.getD "" →
      v.status = "ready" ∧
      v.duration_seconds = some (maxTsOrZero (parsedOrFallback p req.title) + 30) := by
  intro v hv hvid
  have hmap : (parsedOrFallback p req.title).map
      (fun s => s.timestamp_seconds.getD 0) ≠ [] := by
    simpa using hne
  have hjs := jsMax_of_ne_nil _ hmap
  simp only [analyzeVideo, hid, hurl, hkey, hfetch, hins, hupd, Bool.and_self,
    Bool.not_true, Bool.false_eq_true, if_false, updateVideoRow, hjs,
    Option.map_some] at hv
  simp only [List.mem_map] at hv
  obtain ⟨u, _, rfl⟩ := hv
  by_cases h : u.id = req.videoId.getD ""
  · simp [h, maxTsOrZero]
  · simp only [h, if_false] at hvid

/-- Witness for the amended C2 on the counterexample run: status becomes
ready and the duration is `max(5, 0) + 30 = 35`. -/
theorem C2_ready_duration_witness :
    (⟨"v1", "Demo", "demo.mp4", "videos/demo.mp4", some 35, "ready"⟩ : VideoRow).status =
      "ready" ∧
    (⟨"v1", "Demo", "demo.mp4", "videos/demo.mp4", some 35, "ready"⟩ : VideoRow).duration_seconds =
      some (maxTsOrZero (parsedOrFallback (some c2Segs) demoReq.title) + 30) :=
  C2_ready_duration demoReq c2Env demoDb (some c2Segs) rfl rfl rfl rfl rfl rfl
    (by decide)
    ⟨"v1", "Demo", "demo.mp4", "videos/demo.mp4", some 35, "ready"⟩
    (by decide) rfl

/-- C6: with `LOVABLE_API_KEY` absent, analyze-video returns HTTP 500 with
error message "LOVABLE_API_KEY is not configured" and leaves the database
(segments and video rows alike) completely unchanged. -/
theorem C6_missing_api_key (req : AnalyzeReq) (env : AnalyzeEnv) (db : Db)
    (hid : jsTruthy req.videoId = true) (hurl : jsTruthy req.videoUrl = true)
    (hkey : env.lovableApiKey = none) :
    analyzeVideo req env db =
      (⟨500, .error "LOVABLE_API_KEY is not configured"⟩, db) := by
  have hk : jsTruthy env.lovableApiKey = false := by rw [hkey]; rfl
  simp [analyzeVideo, hid, hurl, hk]

/-- Witness for C6: the "Demo" video stays in status `processing` because
the returned state is the input state. -/
theorem C6_missing_api_key_witness :
    analyzeVideo demoReq ⟨none, .okParse none, none, none, fun _ => (9 : ℚ)/10⟩ demoDb =
      (⟨500, .error "LOVABLE_API_KEY is not configured"⟩, demoDb) :=
  C6_missing_api_key demoReq _ demoDb rfl rfl rfl

/-- C10: a parsed segment at index `i > 0` whose `timestamp_seconds` is 0 or
absent is inserted with `timestamp_seconds = i * 30` (a nonzero value): the
JS falsy-or default erases a legitimate zero timestamp everywhere except at
index 0. -/
theorem C10_falsy_zero_timestamp (videoId : String) (conf : Nat → ℚ)
    (segs : List SegJson) (i : Nat) (seg : SegJson)
    (hget : segs[i]? = some seg) (hi : 0 < i)
    (hts : seg.timestamp_seconds = some 0 ∨ seg.timestamp_seconds = none) :
    ((segmentRecords videoId conf segs)[i]?).map (fun r => r.timestamp_seconds) =
      some (i * 30) ∧ i * 30 ≠ 0 := by
  constructor
  · simp only [segmentRecords, List.getElem?_map, List.enum, List.getElem?_enumFrom,
      hget, Option.map_map, Option.map_some, Nat.zero_add, Function.comp]
    rcases hts with h | h <;> simp [numOr, h]
  · omega

/-- Witness for C10 at index 1 of the C2 segment list (raw timestamp 0,
inserted timestamp 30). -/
theorem C10_falsy_zero_timestamp_witness :
    ((segmentRecords "v1" (fun _ => (9 : ℚ)/10) c2Segs)[1]?).map
        (fun r => r.timestamp_seconds) = some (1 * 30) ∧ 1 * 30 ≠ 0 :=
  C10_falsy_zero_timestamp "v1" (fun _ => (9 : ℚ)/10) c2Segs 1
    ⟨some 0, none, none, none, none⟩ rfl (by decide) (Or.inl rfl)

/-! ### search-videos handler -/

/-- JS `text.includes(w)`: substring containment. -/
def jsIncludes (text w : String) : Bool :=
  text.data.tails.any fun t => w.data.isPrefixOf t

/-- JS `s.toLowerCase()`, character by character. -/
def jsToLower (s : String) : String :=
  String.mk (s.data.map Char.toLower)

/-- Worker for `query.split(/\s+/)`: pieces between maximal whitespace
runs, with the JS boundary behaviour (a leading or trailing run yields an
empty piece; the empty string yields `[""]`).  The second argument is
`some acc` while accumulating a piece and `none` while consuming a
whitespace run. -/
def splitWsCore : List Char → Option (List Char) → List (List Char)
  | [], none => [[]]
  | [], some acc => [acc.reverse]
  | c :: rest, none =>
    if c.isWhitespace then splitWsCore rest none
    else splitWsCore rest (some [c])
  | c :: rest, some acc =>
    if c.isWhitespace then acc.reverse :: splitWsCore rest none
    else splitWsCore rest (some (c :: acc))

/-- JS `s.split(/\s+/)`. -/
def jsSplitWs (s : String) : List String :=
  (splitWsCore s.data (some [])).map String.mk

/-- One ranking entry (`{index, relevance_score, reason}`), either parsed
from the AI reply or produced by the fallback scorer. -/
structure RankJson where
  index : Nat
  relevance_score : ℚ
  reason : String
  deriving Repr, DecidableEq

/-- The optional `filters` object of a search request. -/
structure SearchFilters where
  objectName : Option String
  minCount : Option Nat
  deriving Repr, DecidableEq

/-- Request body of search-videos. -/
structure SearchReq where
  query : Option String
  videoId : Option String
  filters : Option SearchFilters
  deriving Repr, DecidableEq

/-- A fetched `video_segments` row joined (`videos!inner`) to its video. -/
structure JoinedSeg where
  seg : SegmentRow
  video : VideoRow
  deriving Repr, DecidableEq

/-- What happened between `rankingContent` and `rankings`: the content was
absent (so `.match` threw a TypeError), the regex found no `[...]`
substring (`match` returned null — note: no fallback in the source here),
`JSON.parse` threw, or it parsed to a ranking list. -/
inductive RankParse where
  | contentMissing
  | noMatch
  | parseThrew
  | parsed (rs : List RankJson)
  deriving Repr, DecidableEq

/-- Outcome of the AI-gateway `fetch` in search-videos. -/
inductive SearchFetch where
  | httpError (status : Nat)
  | ok (p : RankParse)
  deriving Repr, DecidableEq

/-- Environment of one search-videos invocation. -/
structure SearchEnv where
  lovableApiKey : Option String
  dbFetchError : Option String
  fetch : SearchFetch
  deriving Repr, DecidableEq

/-- One element of the `results` array the handler returns. -/
structure SearchResult where
  id : String
  video_id : String
  video_title : Option String
  video_path : Option String
  timestamp_seconds : Nat
  timestamp_display : String
  description : Option String
  transcript : Option String
  ocr_text : Option String
  detected_objects : List (String × Nat)
  relevance_score : ℚ
  relevance_reason : String
  deriving Repr, DecidableEq

/-- Response body of search-videos. -/
inductive SearchBody where
  | results (rs : List SearchResult) (message : Option String)
  | error (msg : String)
  deriving Repr, DecidableEq

/-- An HTTP response of search-videos. -/
structure SearchResp where
  status : Nat
  body : SearchBody
  deriving Repr, DecidableEq

/-- The segment fetch: all `video_segments` rows inner-joined to a video
with `status = "ready"`, optionally restricted (`if (videoId)`) to one
video, in table order. -/
def fetchJoinedSegments (db : Db) (videoId : Option String) : List JoinedSeg :=
  db.segments.filterMap fun s =>
    match db.videos.find? (fun v => v.id == s.video_id && v.status == "ready") with
    | some v =>
      if !(jsTruthy videoId) || s.video_id == videoId.getD "" then some ⟨s, v⟩
      else none
    | none => none

/-- The text blob the fallback scorer searches:
```${seg.description || ""} ${seg.transcript || ""} ${seg.ocr_text || ""}`.toLowerCase()``. -/
def segText (s : SegmentRow) : String :=
  ((s.description.getD "") ++ " " ++ (s.transcript.getD "") ++ " " ++
    (s.ocr_text.getD "")) |> jsToLower

/-- The fallback keyword scorer (the `catch` branch of the ranking parse):
score each segment by the fraction of lower-cased whitespace-split query
words occurring as substrings of its text blob, keep scores `> 0.3`, sort
descending (JS stable sort), take the first 10. -/
def fallbackRankings (segments : List JoinedSeg) (query : String) : List RankJson :=
  (((segments.enum.map fun p =>
      let text := segText p.2.seg
      let queryLower := jsToLower query
      let words := jsSplitWs queryLower
      let matchCount := (words.filter fun w => jsIncludes text w).length
      ({ index := p.1,
         relevance_score := (matchCount : ℚ) / (words.length : ℚ),
         reason := "Keyword matching fallback" } : RankJson)).filter
    fun r => r.relevance_score > 3/10).mergeSort
    fun a b => decide (b.relevance_score ≤ a.relevance_score)).take 10

/-- `let rankings = []; try {...} catch {rankings = fallback}` from the
source: the fallback fires only when the `try` block throws
(`contentMissing` or `parseThrew`); a reply with no `[...]` substring
leaves `rankings` empty. -/
def computeRankings (p : RankParse) (segments : List JoinedSeg)
    (query : String) : List RankJson :=
  match p with
  | .contentMissing => fallbackRankings segments query
  | .noMatch => []
  | .parseThrew => fallbackRankings segments query
  | .parsed rs => rs

/-- The body of the object filter's callback:
`count >= (filters.minCount || 1)` with `count = objects[name] || 0`;
`none` models the TypeError thrown when `rank.index` is out of range. -/
def objectFilterPred (segments : List JoinedSeg) (name : String)
    (minCount : Option Nat) (r : RankJson) : Option Bool :=
  (segments[r.index]?).map fun js =>
    let count := (js.seg.detected_objects.lookup name).getD 0
    count ≥ numOr minCount 1

/-- `Array.prototype.filter` over a predicate that can throw. -/
def filterJs (p : RankJson → Option Bool) : List RankJson → Option (List RankJson)
  | [] => some []
  | r :: rs =>
    match p r with
    | none => none
    | some true => (filterJs p rs).map (r :: ·)
    | some false => filterJs p rs

/-- `if (filters?.objectName) rankings = rankings.filter(...)`. -/
def applyObjectFilter (filters : Option SearchFilters)
    (segments : List JoinedSeg) (rankings : List RankJson) :
    Option (List RankJson) :=
  match filters with
  | none => some rankings
  | some f =>
    if jsTruthy f.objectName then
      filterJs (objectFilterPred segments (f.objectName.getD "") f.minCount) rankings
    else some rankings

/-- One element of the final `results` array; `none` models the TypeError
on an out-of-range `rank.index`. -/
def buildResult (segments : List JoinedSeg) (r : RankJson) :
    Option SearchResult :=
  (segments[r.index]?).map fun js =>
    { id := js.seg.id
      video_id := js.seg.video_id
      video_title := some js.video.title
      video_path := some js.video.storage_path
      timestamp_seconds := js.seg.timestamp_seconds
      timestamp_display := js.seg.timestamp_display
      description := js.seg.description
      transcript := js.seg.transcript
      ocr_text := js.seg.ocr_text
      detected_objects := js.seg.detected_objects
      relevance_score := r.relevance_score
      relevance_reason := r.reason }

/-- The JS TypeError message raised on member access of `undefined`;
it reaches the caller through the handler's `catch`. -/
def undefinedAccessError : String := "Cannot read properties of undefined"

/-- The search-videos handler (`supabase/functions/search-videos/index.ts`). -/
def searchVideos (req : SearchReq) (env : SearchEnv) (db : Db) : SearchResp :=
  if !(jsTruthy req.query) then ⟨500, .error "Missing search query"⟩
  else if !(jsTruthy env.lovableApiKey) then
    ⟨500, .error "LOVABLE_API_KEY is not configured"⟩
  else
    match env.dbFetchError with
    | some e => ⟨500, .error e⟩
    | none =>
      let segments := fetchJoinedSegments db req.videoId
      if segments.isEmpty then
        ⟨200, .results [] (some "No indexed content found")⟩
      else
        match env.fetch with
        | .httpError s =>
          if s = 429 then ⟨429, .error "Rate limited. Please try again later."⟩
          else if s = 402 then ⟨402, .error "Payment required. Please add funds."⟩
          else ⟨500, .error ("AI gateway error: " ++ toString s)⟩
        | .ok p =>
          let rankings := computeRankings p segments (req.query.getD "")
          match applyObjectFilter req.filters segments rankings with
          | none => ⟨500, .error undefinedAccessError⟩
          | some rankings2 =>
            match rankings2.mapM (buildResult segments) with
            | none => ⟨500, .error undefinedAccessError⟩
            | some results => ⟨200, .results results none⟩

/-! ### Properties of the fallback scorer and the object filter -/

theorem fallbackRankings_index_lt (segments : List JoinedSeg) (q : String)
    (r : RankJson) (hr : r ∈ fallbackRankings segments q) :
    r.index < segments.length := by
  unfold fallbackRankings at hr
  have h1 := List.mem_of_mem_take hr
  rw [List.mem_mergeSort] at h1
  have h2 := (List.mem_filter.mp h1).1
  rw [List.mem_map] at h2
  obtain ⟨p, hp, he⟩ := h2
  have hlt : p.1 < segments.length := by
    have hg := List.mem_enum_iff_getElem?.mp hp
    exact (List.getElem?_eq_some.mp hg).1
  subst he
  exact hlt

theorem fallbackRankings_score_gt (segments : List JoinedSeg) (q : String)
    (r : RankJson) (hr : r ∈ fallbackRankings segments q) :
    r.relevance_score > 3/10 := by
  unfold fallbackRankings at hr
  have h1 := List.mem_of_mem_take hr
  rw [List.mem_mergeSort] at h1
  have h2 := (List.mem_filter.mp h1).2
  simpa using h2

theorem fallbackRankings_sorted (segments : List JoinedSeg) (q : String) :
    (fallbackRankings segments q).Pairwise
      (fun a b => b.relevance_score ≤ a.relevance_score) := by
  unfold fallbackRankings
  apply List.Pairwise.sublist (List.take_sublist _ _)
  have htrans : ∀ a b c : RankJson,
      decide (b.relevance_score ≤ a.relevance_score) = true →
      decide (c.relevance_score ≤ b.relevance_score) = true →
      decide (c.relevance_score ≤ a.relevance_score) = true := by
    intro a b c hab hbc
    simp only [decide_eq_true_eq] at *
    exact le_trans hbc hab
  have htot : ∀ a b : RankJson,
      (decide (b.relevance_score ≤ a.relevance_score) ||
       decide (a.relevance_score ≤ b.relevance_score)) = true := by
    intro a b
    rcases le_total b.relevance_score a.relevance_score with h | h <;> simp [h]
  exact List.Pairwise.imp (fun h => of_decide_eq_true h)
    (List.sorted_mergeSort htrans htot _)

theorem fallbackRankings_length_le (segments : List JoinedSeg) (q : String) :
    (fallbackRankings segments q).length ≤ 10 := by
  unfold fallbackRankings
  rw [List.length_take]
  exact Nat.min_le_left _ _

theorem mapM_buildResult_isSome (segments : List JoinedSeg)
    (rs : List RankJson) (h : ∀ r ∈ rs, r.index < segments.length) :
    ∃ l, rs.mapM (buildResult segments) = some l := by
  induction rs with
  | nil => exact ⟨[], rfl⟩
  | cons r rs ih =>
    obtain ⟨l, hl⟩ := ih fun x hx => h x (List.mem_cons_of_mem _ hx)
    have hr : r.index < segments.length := h r (List.mem_cons_self _ _)
    have hjs : segments[r.index]? = some (segments.get ⟨r.index, hr⟩) :=
      List.getElem?_eq_getElem hr
    obtain ⟨res, hres⟩ : ∃ res, buildResult segments r = some res := by
      rw [buildResult, hjs]
      exact ⟨_, rfl⟩
    exact ⟨res :: l, by rw [List.mapM_cons, hres, hl]; rfl⟩

/-- A database with one ready video and one segment whose description
contains "hello". -/
def searchDb : Db :=
  ⟨[⟨"v1", "Demo", "demo.mp4", "videos/demo.mp4", none, "ready"⟩],
   [⟨"s1", "v1", 0, "00:00:00", some "hello there", none, [], none, none, (9 : ℚ)/10⟩],
   []⟩

/-- C4 counterexample: on a reply with no JSON-array substring (`noMatch`)
the handler returns an empty result list, while the fallback scorer over the
same segments and query is nonempty — so "missing or unparseable replies
return exactly the fallback scorer's output" is false as stated. -/
theorem C4_counterexample :
    searchVideos ⟨some "hello", none, none⟩ ⟨some "k", none, .ok .noMatch⟩ searchDb =
      ⟨200, .results [] none⟩ ∧
    (fallbackRankings (fetchJoinedSegments searchDb none) "hello").map
      (fun r => (r.index, r.relevance_score)) = [(0, 1)] := by
  have hsc : ((1 : Nat) : ℚ)/((1 : Nat) : ℚ) > 3/10 := by norm_num
  have hval : ((1 : Nat) : ℚ)/((1 : Nat) : ℚ) = 1 := by norm_num
  constructor
  · rfl
  · have h0 : fallbackRankings (fetchJoinedSegments searchDb none) "hello" =
        (([({ index := 0, relevance_score := ((1 : Nat) : ℚ)/((1 : Nat) : ℚ),
              reason := "Keyword matching fallback" } : RankJson)].filter
           fun r => r.relevance_score > 3/10).mergeSort
          fun a b => decide (b.relevance_score ≤ a.relevance_score)).take 10 := rfl
    rw [h0]
    have hsc1 : (3 : ℚ)/10 < 1 := by norm_num
    simp [hsc, hval, hsc1]

/-- C4 (amended): when processing the ranking reply *throws* — the content
is missing (so `.match` throws) or `JSON.parse` throws on the matched
substring — the returned results are exactly the fallback scorer's output,
which keeps only scores `> 0.3`, is sorted by score descending, and has at
most 10 entries; but when the reply merely contains no JSON-array substring,
the rankings stay empty (no fallback). -/
theorem C4_fallback_rankings (req : SearchReq) (env : SearchEnv) (db : Db)
    (p : RankParse)
    (hq : jsTruthy req.query = true) (hkey : jsTruthy env.lovableApiKey = true)
    (hdb : env.dbFetchError = none) (hf : env.fetch = .ok p)
    (hp : p = .contentMissing ∨ p = .parseThrew)
    (hfil : req.filters = none)
    (hne : (fetchJoinedSegments db req.videoId).isEmpty = false) :
    searchVideos req env db =
      ⟨200, .results
        (((fallbackRankings (fetchJoinedSegments db req.videoId)
            (req.query.getD "")).mapM
          (buildResult (fetchJoinedSegments db req.videoId))).getD []) none⟩ ∧
    (∀ r ∈ fallbackRankings (fetchJoinedSegments db req.videoId) (req.query.getD ""),
      r.relevance_score > 3/10) ∧
    (fallbackRankings (fetchJoinedSegments db req.videoId) (req.query.getD "")).Pairwise
      (fun a b => b.relevance_score ≤ a.relevance_score) ∧
    (fallbackRankings (fetchJoinedSegments db req.videoId) (req.query.getD "")).length ≤ 10 ∧
    computeRankings .noMatch (fetchJoinedSegments db req.videoId) (req.query.getD "") = [] := by
  obtain ⟨l, hl⟩ := mapM_buildResult_isSome (fetchJoinedSegments db req.videoId)
    (fallbackRankings (fetchJoinedSegments db req.videoId) (req.query.getD ""))
    (fallbackRankings_index_lt _ _)
  refine ⟨?_, fallbackRankings_score_gt _ _, fallbackRankings_sorted _ _,
    fallbackRankings_length_le _ _, rfl⟩
  have hcr : computeRankings p (fetchJoinedSegments db req.videoId) (req.query.getD "") =
      fallbackRankings (fetchJoinedSegments db req.videoId) (req.query.getD "") := by
    rcases hp with h | h <;> rw [h] <;> rfl
  simp only [searchVideos, hq, hkey, hdb, hf, hfil, hne, Bool.not_true,
    Bool.false_eq_true, if_false, hcr, applyObjectFilter, hl, Option.getD_some]

/-- Witness for the amended C4: a concrete `parseThrew` run over `searchDb`. -/
theorem C4_fallback_rankings_witness :
    searchVideos ⟨some "hello", none, none⟩ ⟨some "k", none, .ok .parseThrew⟩ searchDb =
      ⟨200, .results
        (((fallbackRankings (fetchJoinedSegments searchDb none) "hello").mapM
          (buildResult (fetchJoinedSegments searchDb none))).getD []) none⟩ ∧
    (∀ r ∈ fallbackRankings (fetchJoinedSegments searchDb none) "hello",
      r.relevance_score > 3/10) ∧
    (fallbackRankings (fetchJoinedSegments searchDb none) "hello").Pairwise
      (fun a b => b.relevance_score ≤ a.relevance_score) ∧
    (fallbackRankings (fetchJoinedSegments searchDb none) "hello").length ≤ 10 ∧
    computeRankings .noMatch (fetchJoinedSegments searchDb none) "hello" = [] :=
  C4_fallback_rankings ⟨some "hello", none, none⟩ ⟨some "k", none, .ok .parseThrew⟩
    searchDb .parseThrew rfl rfl rfl rfl (Or.inr rfl) rfl rfl

/-- The detected-object count the filter compares: `objects[name] || 0` of
`segments[idx]` (0 when the index is out of range). -/
def objectCount (segments : List JoinedSeg) (idx : Nat) (name : String) : Nat :=
  ((segments[idx]?).map fun js =>
    (js.seg.detected_objects.lookup name).getD 0).getD 0

theorem objectFilterPred_eq (segments : List JoinedSeg) (name : String)
    (minCount : Option Nat) (r : RankJson) (h : r.index < segments.length) :
    objectFilterPred segments name minCount r =
      some (decide (objectCount segments r.index name ≥ numOr minCount 1)) := by
  unfold objectFilterPred objectCount
  rw [List.getElem?_eq_getElem h]
  rfl

theorem filterJs_eq_filter (p : RankJson → Option Bool) (rs : List RankJson)
    (h : ∀ r ∈ rs, (p r).isSome = true) :
    filterJs p rs = some (rs.filter fun r => (p r).getD false) := by
  induction rs with
  | nil => rfl
  | cons r rs ih =>
    have hr := h r (List.mem_cons_self _ _)
    obtain ⟨b, hb⟩ := Option.isSome_iff_exists.mp hr
    have ih' := ih fun x hx => h x (List.mem_cons_of_mem _ hx)
    cases b
    · simp [filterJs, hb, ih', List.filter_cons]
    · simp [filterJs, hb, ih', List.filter_cons]

/-- A search segment whose `detected_objects` maps `"car"` to `n`. -/
def carSeg (n : Nat) : JoinedSeg :=
  ⟨⟨"s1", "v1", 0, "00:00:00", none, none, [("car", n)], none, none, (9 : ℚ)/10⟩,
   ⟨"v1", "Demo", "demo.mp4", "videos/demo.mp4", none, "ready"⟩⟩

/-- C5 counterexample: with `objectName = "car"` and `minCount = 0`, a
ranking whose segment has car-count 0 satisfies "count ≥ minCount", yet the
filter removes it (the JS `minCount || 1` turns 0 into 1) — so "survives
iff count ≥ minCount" is false as stated. -/
theorem C5_counterexample :
    applyObjectFilter (some ⟨some "car", some 0⟩) [carSeg 0] [⟨0, 1, "r"⟩] =
      some [] ∧
    objectCount [carSeg 0] 0 "car" = 0 ∧ (0 : Nat) ≥ 0 :=
  ⟨rfl, rfl, le_refl 0⟩

/-- C5 (amended): with an active object filter (nonempty `objectName`) and
in-range ranking indices, a ranking survives iff its segment's count for
the named object is at least the *effective* minimum `minCount || 1`
(`numOr minCount 1`): the given `minCount` when it is a nonzero number,
else 1.  In particular, for `objectName = "car"`, `minCount = 2`, a
segment with `{car: 1}` is removed and one with `{car: 2}` is kept. -/
theorem C5_object_filter (segments : List JoinedSeg) (rankings : List RankJson)
    (name : String) (minCount : Option Nat)
    (hname : name ≠ "")
    (hidx : ∀ r ∈ rankings, r.index < segments.length) :
    (applyObjectFilter (some ⟨some name, minCount⟩) segments rankings =
      some (rankings.filter fun r =>
        decide (objectCount segments r.index name ≥ numOr minCount 1))) ∧
    (∀ r, r ∈ (rankings.filter fun r =>
        decide (objectCount segments r.index name ≥ numOr minCount 1)) ↔
      r ∈ rankings ∧ objectCount segments r.index name ≥ numOr minCount 1) ∧
    applyObjectFilter (some ⟨some "car", some 2⟩) [carSeg 1] [⟨0, 1, "r"⟩] =
      some [] ∧
    applyObjectFilter (some ⟨some "car", some 2⟩) [carSeg 2] [⟨0, 1, "r"⟩] =
      some [⟨0, 1, "r"⟩] := by
  have htr : jsTruthy (some name) = true := by
    simp [jsTruthy, hname]
  refine ⟨?_, ?_, rfl, rfl⟩
  · show (if jsTruthy (some name) then
        filterJs (objectFilterPred segments ((some name).getD "") minCount) rankings
      else some rankings) = _
    rw [htr]
    simp only [if_true, Option.getD_some]
    rw [filterJs_eq_filter _ _
      (fun r hr => by rw [objectFilterPred_eq _ _ _ _ (hidx r hr)]; rfl)]
    congr 1
    apply List.filter_congr
    intro r hr
    rw [objectFilterPred_eq _ _ _ _ (hidx r hr)]
    rfl
  · intro r
    simp [List.mem_filter]

/-- Witness for the amended C5 on the `"car"` example with `minCount = 2`. -/
theorem C5_object_filter_witness :
    (applyObjectFilter (some ⟨some "car", some 2⟩) [carSeg 1] [⟨0, 1, "r"⟩] =
      some ([⟨0, 1, "r"⟩].filter fun r =>
        decide (objectCount [carSeg 1] r.index "car" ≥ numOr (some 2) 1))) ∧
    (∀ r, r ∈ ([⟨0, 1, "r"⟩].filter fun r =>
        decide (objectCount [carSeg 1] r.index "car" ≥ numOr (some 2) 1)) ↔
      r ∈ ([⟨0, 1, "r"⟩] : List RankJson) ∧
        objectCount [carSeg 1] r.index "car" ≥ numOr (some 2) 1) ∧
    applyObjectFilter (some ⟨some "car", some 2⟩) [carSeg 1] [⟨0, 1, "r"⟩] =
      some [] ∧
    applyObjectFilter (some ⟨some "car", some 2⟩) [carSeg 2] [⟨0, 1, "r"⟩] =
      some [⟨0, 1, "r"⟩] :=
  C5_object_filter [carSeg 1] [⟨0, 1, "r"⟩] "car" (some 2)
    (by decide) (by decide)

/-- C8 counterexample: a gateway failure with status 503 is *not* passed
through — the handler throws `"AI gateway error: 503"` and its catch block
returns HTTP 500. -/
theorem C8_counterexample :
    searchVideos ⟨some "hello", none, none⟩ ⟨some "k", none, .httpError 503⟩ searchDb =
      ⟨500, .error "AI gateway error: 503"⟩ ∧ (500 : Nat) ≠ 503 :=
  ⟨rfl, by decide⟩

/-- C8 (amended): on a failed AI-gateway response, search-videos returns 429
("Rate limited...") and 402 ("Payment required...") directly with those
statuses, but any other failing status is thrown and surfaces as HTTP 500
with message `AI gateway error: <status>`. -/
theorem C8_gateway_errors (req : SearchReq) (env : SearchEnv) (db : Db)
    (s : Nat)
    (hq : jsTruthy req.query = true) (hkey : jsTruthy env.lovableApiKey = true)
    (hdb : env.dbFetchError = none)
    (hne : (fetchJoinedSegments db req.videoId).isEmpty = false)
    (hf : env.fetch = .httpError s) :
    (s = 429 → searchVideos req env db =
      ⟨429, .error "Rate limited. Please try again later."⟩) ∧
    (s = 402 → searchVideos req env db =
      ⟨402, .error "Payment required. Please add funds."⟩) ∧
    (s ≠ 429 → s ≠ 402 → searchVideos req env db =
      ⟨500, .error ("AI gateway error: " ++ toString s)⟩) := by
  refine ⟨?_, ?_, ?_⟩
  · intro h
    subst h
    simp [searchVideos, hq, hkey, hdb, hne, hf]
  · intro h
    subst h
    simp [searchVideos, hq, hkey, hdb, hne, hf]
  · intro h1 h2
    simp [searchVideos, hq, hkey, hdb, hne, hf, h1, h2]

/-- Witness for the amended C8 at gateway status 503. -/
theorem C8_gateway_errors_witness :
    ((503 : Nat) = 429 →
      searchVideos ⟨some "hello", none, none⟩ ⟨some "k", none, .httpError 503⟩ searchDb =
        ⟨429, .error "Rate limited. Please try again later."⟩) ∧
    ((503 : Nat) = 402 →
      searchVideos ⟨some "hello", none, none⟩ ⟨some "k", none, .httpError 503⟩ searchDb =
        ⟨402, .error "Payment required. Please add funds."⟩) ∧
    ((503 : Nat) ≠ 429 → (503 : Nat) ≠ 402 →
      searchVideos ⟨some "hello", none, none⟩ ⟨some "k", none, .httpError 503⟩ searchDb =
        ⟨500, .error ("AI gateway error: " ++ toString 503)⟩) :=
  C8_gateway_errors ⟨some "hello", none, none⟩ ⟨some "k", none, .httpError 503⟩
    searchDb 503 rfl rfl rfl rfl rfl

/-! ### video-qa handler -/

/-- Request body of video-qa. -/
structure QaReq where
  question : Option String
  videoId : Option String
  deriving Repr, DecidableEq

/-- What happened between `content` and `{answer, relevantTimestamps}`:
the regex found no `{...}` substring, `JSON.parse` threw, or it parsed to
an object with these two (possibly absent) fields. -/
inductive QaParse where
  | noMatch
  | parseThrew
  | parsed (answer : Option String) (relevant_timestamps : Option (List String))
  deriving Repr, DecidableEq

/-- Outcome of the AI-gateway `fetch` in video-qa; `content` is the reply
text after the source's `|| ""` default. -/
inductive QaFetch where
  | httpError (status : Nat)
  | ok (content : String) (p : QaParse)
  deriving Repr, DecidableEq

/-- Environment of one video-qa invocation. -/
structure QaEnv where
  lovableApiKey : Option String
  segFetchError : Option String
  fetch : QaFetch
  historyInsertError : Option String
  deriving Repr, DecidableEq

/-- Response body of video-qa. -/
inductive QaBody where
  | ok (answer : String) (relevant_timestamps : List String)
  | error (msg : String)
  deriving Repr, DecidableEq

/-- An HTTP response of video-qa. -/
structure QaResp where
  status : Nat
  body : QaBody
  deriving Repr, DecidableEq

/-- The video-qa handler (`supabase/functions/video-qa/index.ts`).  The
segment fetch and prompt construction only feed the oracle AI call, so they
do not appear in the state transition; `.single()` errors (no unique video
row) become the thrown "Video not found". -/
def videoQa (req : QaReq) (env : QaEnv) (db : Db) : QaResp × Db :=
  if !(jsTruthy req.question && jsTruthy req.videoId) then
    (⟨500, .error "Missing question or videoId"⟩, db)
  else if !(jsTruthy env.lovableApiKey) then
    (⟨500, .error "LOVABLE_API_KEY is not configured"⟩, db)
  else
    match db.videos.filter (fun v => v.id == req.videoId.getD "") with
    | [_video] =>
      (match env.segFetchError with
      | some e => (⟨500, .error e⟩, db)
      | none =>
        match env.fetch with
        | .httpError s =>
          if s = 429 then
            (⟨429, .error "Rate limited. Please try again later."⟩, db)
          else if s = 402 then
            (⟨402, .error "Payment required. Please add funds."⟩, db)
          else (⟨500, .error ("AI gateway error: " ++ toString s)⟩, db)
        | .ok content p =>
          let answer := match p with
            | .noMatch => content
            | .parseThrew => content
            | .parsed a _ => strOr a content
          let relevantTimestamps := match p with
            | .noMatch => []
            | .parseThrew => []
            | .parsed _ ts => ts.getD []
          let db1 := match env.historyInsertError with
            | some _ => db
            | none =>
              { db with qaHistory := db.qaHistory ++
                  [⟨req.videoId.getD "", req.question.getD "", answer,
                    relevantTimestamps⟩] }
          (⟨200, .ok answer relevantTimestamps⟩, db1))
    | _ => (⟨500, .error "Video not found"⟩, db)

/-- C9: when the AI reply yields no parseable JSON object (no `{...}`
substring, or `JSON.parse` throws), video-qa answers with the raw reply
text verbatim and an empty timestamp list (and still returns HTTP 200). -/
theorem C9_raw_reply_fallback (req : QaReq) (env : QaEnv) (db : Db)
    (content : String) (p : QaParse) (v : VideoRow)
    (hq : jsTruthy req.question = true) (hid : jsTruthy req.videoId = true)
    (hkey : jsTruthy env.lovableApiKey = true)
    (hvid : db.videos.filter (fun v => v.id == req.videoId.getD "") = [v])
    (hseg : env.segFetchError = none)
    (hf : env.fetch = .ok content p)
    (hp : p = .noMatch ∨ p = .parseThrew) :
    (videoQa req env db).1 = ⟨200, .ok content []⟩ := by
  simp only [videoQa, hq, hid, hkey, hvid, hseg, hf, Bool.and_self,
    Bool.not_true, Bool.false_eq_true, if_false]
  rcases hp with h | h <;> subst h <;> rfl

/-- Witness for C9: a `noMatch` reply over a one-video database. -/
theorem C9_raw_reply_fallback_witness :
    (videoQa ⟨some "What happens?", some "v1"⟩
      ⟨some "k", none, .ok "free text answer" .noMatch, none⟩ demoDb).1 =
      ⟨200, .ok "free text answer" []⟩ :=
  C9_raw_reply_fallback ⟨some "What happens?", some "v1"⟩
    ⟨some "k", none, .ok "free text answer" .noMatch, none⟩ demoDb
    "free text answer" .noMatch
    ⟨"v1", "Demo", "demo.mp4", "videos/demo.mp4", none, "processing"⟩
    rfl rfl rfl rfl rfl rfl (Or.inl rfl)

/-- C7: a request that omits a required field (videoId or videoUrl for
analyze, query for search, question or videoId for qa) is answered with
HTTP 500 and a JSON error-message body — never 400. -/
theorem C7_missing_fields_500 (db : Db) :
    (∀ (req : AnalyzeReq) (env : AnalyzeEnv),
      req.videoId = none ∨ req.videoUrl = none →
      analyzeVideo req env db =
        (⟨500, .error "Missing videoId or videoUrl"⟩, db)) ∧
    (∀ (req : SearchReq) (env : SearchEnv), req.query = none →
      searchVideos req env db = ⟨500, .error "Missing search query"⟩) ∧
    (∀ (req : QaReq) (env : QaEnv),
      req.question = none ∨ req.videoId = none →
      videoQa req env db = (⟨500, .error "Missing question or videoId"⟩, db)) := by
  refine ⟨?_, ?_, ?_⟩
  · intro req env h
    rcases h with h | h <;> simp [analyzeVideo, h, jsTruthy]
  · intro req env h
    simp [searchVideos, h, jsTruthy]
  · intro req env h
    rcases h with h | h <;> simp [videoQa, h, jsTruthy]

/-- Witness for C7: one concrete missing-field request per handler. -/
theorem C7_missing_fields_500_witness :
    analyzeVideo ⟨none, some "https://x/demo.mp4", some "Demo"⟩
      ⟨some "k", .okParse none, none, none, fun _ => (9 : ℚ)/10⟩ demoDb =
      (⟨500, .error "Missing videoId or videoUrl"⟩, demoDb) ∧
    searchVideos ⟨none, none, none⟩ ⟨some "k", none, .ok .noMatch⟩ demoDb =
      ⟨500, .error "Missing search query"⟩ ∧
    videoQa ⟨some "What happens?", none⟩
      ⟨some "k", none, .ok "hi" .noMatch, none⟩ demoDb =
      (⟨500, .error "Missing question or videoId"⟩, demoDb) :=
  ⟨(C7_missing_fields_500 demoDb).1 _ _ (Or.inl rfl),
   (C7_missing_fields_500 demoDb).2.1 _ _ rfl,
   (C7_missing_fields_500 demoDb).2.2 _ _ (Or.inr rfl)⟩
